import Mathlib

/-!
Verification of the lottery bot's ticket lifecycle, draw coordination,
language handling and audit logging, as a shallow embedding of the
repository's Python sources (`bot.py`, `handlers/start.py`,
`utils/language.py`, `utils/logger.py`, `src/helpers/*`).

The persistence layer `src/database/db.py` and the helper module
`src/commands/utils.py` are imported by `bot.py` but are not part of the
source snapshot; their operations are modelled from the specification
(each such definition carries a doc comment starting with
`Modelled from the spec:`).
-/

namespace Lottery

/-- Ticket status: the spec's two stable status tokens, `active` and
`rejected` (a confirmed winner is also marked `rejected`). -/
inductive TicketStatus where
  | active
  | rejected
deriving DecidableEq, Repr

/-- A ticket record as described by the spec's data model: number, owner,
optional display name, opaque photo reference, status, optional reason. -/
structure Ticket where
  ticket_number : Int
  user_id : Int
  username : Option String
  file_id : String
  status : TicketStatus
  status_reason : Option String
deriving DecidableEq, Repr

/-- The live working set of the ticket store: the current round's tickets
together with the global ticket-number counter (`counter` is the last
number issued; `0` initially). -/
structure Store where
  tickets : List Ticket
  counter : Int
deriving DecidableEq, Repr

/-- Modelled from the spec: `src/database/db.py` (absent from the snapshot)
exports `get_next_ticket_number`; per §4.1 it "returns the next unused
ticket number and durably advances the counter". -/
def get_next_ticket_number (st : Store) : Int × Store :=
  (st.counter + 1, { st with counter := st.counter + 1 })

/-- Modelled from the spec: `src/database/db.py` exports `add_ticket`;
per §4.1 it "inserts a new ticket with status `active`". -/
def add_ticket (st : Store) (n : Int) (uid : Int) (uname : Option String)
    (fid : String) : Store :=
  { st with
    tickets := st.tickets ++
      [{ ticket_number := n, user_id := uid, username := uname,
         file_id := fid, status := TicketStatus.active,
         status_reason := none }] }

/-- Modelled from the spec: `src/database/db.py` exports
`get_active_tickets_by_user`; per §4.1 it "returns all tickets owned by
`user_id` with status `active`, in ascending order of ticket number". -/
def get_active_tickets_by_user (st : Store) (uid : Int) : List Int :=
  ((st.tickets.filter
      (fun t => t.user_id == uid && t.status == TicketStatus.active)).map
    Ticket.ticket_number).mergeSort

/-- Modelled from the spec: `src/database/db.py` exports
`get_ticket_by_number_any_status`; per §4.1 a "fetch regardless of status". -/
def get_ticket_by_number_any_status (st : Store) (n : Int) : Option Ticket :=
  st.tickets.find? (fun t => t.ticket_number == n)

/-- Modelled from the spec: `src/database/db.py` exports
`get_active_ticket_by_number`; per §4.1 it fetches "a single ticket only if
status is `active`", `none` when absent or not active. -/
def get_active_ticket_by_number (st : Store) (n : Int) : Option Ticket :=
  st.tickets.find?
    (fun t => t.ticket_number == n && t.status == TicketStatus.active)

/-- The spec's forward-only transition relation (§4.1 state machine):
every transition is allowed except moving out of `rejected`. -/
def allowedTransition : TicketStatus → TicketStatus → Bool
  | TicketStatus.rejected, TicketStatus.active => false
  | _, _ => true

/-- The status/reason update applied to the ticket carrying number `n`. -/
def updateStatus (n : Int) (new : TicketStatus) (reason : Option String)
    (t : Ticket) : Ticket :=
  if t.ticket_number == n then
    { t with status := new, status_reason := reason }
  else t

/-- Modelled from the spec: `src/database/db.py` exports
`set_ticket_status`; per §4.1 it "applies the forward-only transition" and
"must reject (no-op, report failure) attempts to move a ticket out of
`rejected`"; returns success/NotFound as a Bool. -/
def set_ticket_status (st : Store) (n : Int) (new : TicketStatus)
    (reason : Option String) : Bool × Store :=
  match st.tickets.find? (fun t => t.ticket_number == n) with
  | none => (false, st)
  | some t =>
    if allowedTransition t.status new then
      (true, { st with tickets := st.tickets.map (updateStatus n new reason) })
    else
      (false, st)

/-- Modelled from the spec: `src/database/db.py` exports
`get_random_active_ticket`; per §4.1 it "selects one ticket uniformly at
random among all tickets currently `active`" and "returns `Empty` if no
active tickets exist"; the random choice is an index supplied by the
environment. This operation does not mutate ticket status. -/
def get_random_active_ticket (st : Store) (randIdx : Nat) : Option Ticket :=
  let actives := st.tickets.filter (fun t => t.status == TicketStatus.active)
  actives[randIdx % actives.length]?

/-- Modelled from the spec: `src/database/db.py` exports `archive_lottery`;
per §4.1 `archive_round()` "atomically removes all tickets (active and
rejected) from the live working set, preserving the global ticket-number
counter". -/
def archive_lottery (st : Store) : Store :=
  { st with tickets := [] }

/-- Per-user language preference storage keyed by user id. -/
abbrev LangMap := List (Int × String)

/-- Modelled from the spec: `src/database/db.py` exports
`get_user_language`; §3 describes a "mapping from user id to a language
key", unset (`none`) before first contact. -/
def db_get_user_language (m : LangMap) (uid : Int) : Option String :=
  m.lookup uid

/-- Modelled from the spec: `src/database/db.py` exports
`set_user_language`, storing the preference for the user id. -/
def db_set_user_language (m : LangMap) (uid : Int) (lang : String) : LangMap :=
  (uid, lang) :: m.filter (fun p => p.1 != uid)

/-- Modelled from the spec: `src/commands/utils.py` (absent from the
snapshot) exports `is_admin`; §6 treats "is this caller an administrator"
as a predicate over a user identifier, here membership in the configured
admin id list. -/
def is_admin (uid : Int) (admin_ids : List Int) : Bool :=
  admin_ids.contains uid

/-- Value of a decimal digit character, `none` for a non-digit. -/
def digit_val (c : Char) : Option Nat :=
  if c.isDigit then some (c.toNat - 48) else none

/-- Decimal parse of a digit string; `none` when empty or when any
character is not a digit. -/
def parse_nat_digits (cs : List Char) : Option Nat :=
  match cs with
  | [] => none
  | _ =>
    cs.foldl
      (fun acc c => acc.bind (fun a => (digit_val c).map (fun d => a * 10 + d)))
      (some 0)

/-- Modelled from the spec: `src/commands/utils.py` exports
`parse_int_safe`; §6 requires the core to "parse this payload defensively
and treat a non-integer suffix as an error", so a decimal-integer parse
(optional leading minus sign) returning `none` on any malformed input. -/
def parse_int_safe (s : String) : Option Int :=
  match s.data with
  | [] => none
  | c :: rest =>
    if c = '-' then (parse_nat_digits rest).map (fun n => -(n : Int))
    else (parse_nat_digits s.data).map (fun n => (n : Int))

/-- Python's `str.startswith`, over the characters of the strings. -/
def starts_with (s pre : String) : Bool :=
  pre.data.isPrefixOf s.data

/-- `callback.data.split(":", 1)[1]` from `bot.py`: the portion of the
payload after the first colon (used only under a `startsWith` guard that
guarantees a colon is present). -/
def after_first_colon (s : String) : String :=
  String.mk ((s.data.dropWhile (fun c => c != ':')).tail)

/-- System state seen by the draw handler: the ticket store plus the
global non-blocking draw mutual-exclusion flag (`draw_lock` from
`src/commands/utils.py`; modelled from the spec's §5 "single global
mutual-exclusion flag (not a queue)"). -/
structure SysState where
  store : Store
  drawLocked : Bool
deriving DecidableEq, Repr

/-- The user-visible outcomes of `admin_start_draw` in `bot.py`. -/
inductive DrawResponse where
  | insufficientRights
  | drawInProgress
  | noActiveTickets
  | drawResult (ticket_number : Int) (username : Option String)
      (file_id : String)
deriving DecidableEq, Repr

/-- Embedding of `admin_start_draw` (`bot.py` lines 300-350): reject
non-admins; if the draw lock is held, answer "draw in progress" at once
and do nothing else; otherwise run the draw inside the lock (which is
released when the handler finishes, so the final lock state equals the
entry state) and present the drawn ticket. The draw itself never mutates
the ticket store. -/
def admin_start_draw (admin_ids : List Int) (uid : Int) (randIdx : Nat)
    (s : SysState) : DrawResponse × SysState :=
  if ¬ is_admin uid admin_ids then (DrawResponse.insufficientRights, s)
  else if s.drawLocked then (DrawResponse.drawInProgress, s)
  else
    match get_random_active_ticket s.store randIdx with
    | none => (DrawResponse.noActiveTickets, s)
    | some t => (DrawResponse.drawResult t.ticket_number t.username t.file_id, s)

/-- The user-visible outcomes of `admin_confirm_winner` in `bot.py`. -/
inductive ConfirmResponse where
  | noRights
  | ignored
  | incorrectNumber
  | unavailable
  | winnerPublished (ticket_number : Int)
deriving DecidableEq, Repr

/-- Embedding of `admin_confirm_winner` (`bot.py` lines 353-411): admin
check, payload-shape check, defensive integer parse of the suffix after
the colon, availability check (`get_ticket_by_number_any_status` must
return an `active` ticket), then mark the ticket `rejected` so the winner
does not participate again. -/
def admin_confirm_winner (admin_ids : List Int) (uid : Int) (data : String)
    (st : Store) : ConfirmResponse × Store :=
  if ¬ is_admin uid admin_ids then (ConfirmResponse.noRights, st)
  else if ¬ starts_with data "confirm_win:" then (ConfirmResponse.ignored, st)
  else
    match parse_int_safe (after_first_colon data) with
    | none => (ConfirmResponse.incorrectNumber, st)
    | some num =>
      match get_ticket_by_number_any_status st num with
      | none => (ConfirmResponse.unavailable, st)
      | some t =>
        if t.status ≠ TicketStatus.active then (ConfirmResponse.unavailable, st)
        else
          (ConfirmResponse.winnerPublished num,
           (set_ticket_status st num TicketStatus.rejected none).2)

/-- The user-visible outcomes of `user_view_ticket_callback` in `bot.py`. -/
inductive ViewResponse where
  | incorrectRequest
  | incorrectNumber
  | notFound
  | noAccess
  | showPhoto (file_id : String) (ticket_number : Int)
deriving DecidableEq, Repr

/-- Embedding of `user_view_ticket_callback` (`bot.py` lines 460-507):
payload-shape check, defensive integer parse, active-ticket lookup,
ownership check, then display; the handler never mutates the store. -/
def user_view_ticket_callback (uid : Int) (data : String) (st : Store) :
    ViewResponse × Store :=
  if ¬ starts_with data "view_ticket:" then (ViewResponse.incorrectRequest, st)
  else
    match parse_int_safe (after_first_colon data) with
    | none => (ViewResponse.incorrectNumber, st)
    | some num =>
      match get_active_ticket_by_number st num with
      | none => (ViewResponse.notFound, st)
      | some t =>
        if t.user_id ≠ uid then (ViewResponse.noAccess, st)
        else (ViewResponse.showPhoto t.file_id num, st)

/-- Embedding of `admin_archive` (`bot.py` lines 510-536): admin check,
then `archive_lottery()`; returns whether archival was performed. -/
def admin_archive (admin_ids : List Int) (uid : Int) (st : Store) :
    Bool × Store :=
  if ¬ is_admin uid admin_ids then (false, st)
  else (true, archive_lottery st)

/-- Embedding of `handle_my_tickets` (`bot.py` lines 268-297): the ticket
numbers shown to the user are `[row[0] for row in rows]` where `rows` is
`get_active_tickets_by_user(user.id)`. -/
def handle_my_tickets (st : Store) (uid : Int) : List Int :=
  get_active_tickets_by_user st uid

/-- `LANGUAGE_MAPPING` from `utils/language.py`: Telegram language codes
to language keys. -/
def LANGUAGE_MAPPING : List (String × String) :=
  [("en", "english"), ("ar", "arabic"), ("ru", "russian"),
   ("es", "spanish"), ("zh", "chinese"), ("zh-cn", "chinese"),
   ("zh-tw", "chinese")]

/-- `DEFAULT_LANGUAGE` from `utils/language.py`. -/
def DEFAULT_LANGUAGE : String := "english"

/-- The loaded translation tables: language key to (string key to text). -/
abbrev Translations := List (String × List (String × String))

/-- Embedding of `get_user_lang` (`utils/language.py`): detect the
language from the client locale hint; default when the hint is absent,
unmapped, or maps to a language with no loaded translations. -/
def get_user_lang (tr : Translations) (language_code : Option String) :
    String :=
  match language_code with
  | none => DEFAULT_LANGUAGE
  | some code =>
    match LANGUAGE_MAPPING.lookup code.toLower with
    | some detected =>
      if (tr.lookup detected).isSome then detected else DEFAULT_LANGUAGE
    | none => DEFAULT_LANGUAGE

/-- Embedding of the module-local `get_user_language`
(`utils/language.py`): the saved preference, or the default language when
none is saved. -/
def local_get_user_language (m : LangMap) (uid : Int) : String :=
  (db_get_user_language m uid).getD DEFAULT_LANGUAGE

/-- Outcome of Python's builtin `str.format` (an external builtin, so it
is a parameter of the embedding): a formatted string, a `KeyError` for a
placeholder missing from the named parameters, or any other exception. -/
inductive FmtResult where
  | ok (s : String)
  | keyError
  | otherError
deriving DecidableEq, Repr

/-- Embedding of `get_text` (`utils/language.py` lines 120-153): take the
translation in the user's language if the key exists there, else the
English default, else the literal missing-translation marker; then format
with the named parameters, returning the unformatted text when formatting
raises (`KeyError` or any other exception). -/
def get_text (fmt : String → List (String × String) → FmtResult)
    (tr : Translations) (m : LangMap) (uid : Int) (key : String)
    (params : List (String × String)) : String :=
  let user_lang := local_get_user_language m uid
  let primary := (tr.lookup user_lang).bind (fun d => d.lookup key)
  let text? :=
    match primary with
    | some t => some t
    | none => (tr.lookup DEFAULT_LANGUAGE).bind (fun d => d.lookup key)
  match text? with
  | none => "[Missing translation: " ++ key ++ "]"
  | some text =>
    match fmt text params with
    | FmtResult.ok s => s
    | FmtResult.keyError => text
    | FmtResult.otherError => text

/-- The total fallback chain exactly as the specification words it: user's
language first, then the English default, then the literal
missing-translation marker; a formatting mismatch yields the unformatted
translation. Stated separately from `get_text` to compare the code against
the spec. -/
def get_text_fallback_spec (fmt : String → List (String × String) → FmtResult)
    (tr : Translations) (m : LangMap) (uid : Int) (key : String)
    (params : List (String × String)) : String :=
  let formatOrRaw : String → String := fun t =>
    match fmt t params with
    | FmtResult.ok s => s
    | _ => t
  match (tr.lookup (local_get_user_language m uid)).bind
      (fun d => d.lookup key) with
  | some t => formatOrRaw t
  | none =>
    match (tr.lookup DEFAULT_LANGUAGE).bind (fun d => d.lookup key) with
    | some t => formatOrRaw t
    | none => "[Missing translation: " ++ key ++ "]"

/-- Embedding of the language portion of `handle_start_command`
(`handlers/start.py` lines 42-52): detect a language from the locale hint,
take the saved preference when present (`saved_language or
detected_language`), and store `user_language` whenever there is no saved
preference or the saved preference differs from the detected one. -/
def handle_start_language (tr : Translations) (m : LangMap) (uid : Int)
    (language_code : Option String) : LangMap :=
  let detected := get_user_lang tr language_code
  let saved := db_get_user_language m uid
  let user_language := saved.getD detected
  if saved.isNone || saved != some detected then
    db_set_user_language m uid user_language
  else m

/-- `try:`/`except Exception:` around a unit-valued action
(`utils/logger.py`): any error is swallowed. -/
def swallow (x : Except String Unit) : Except String Unit :=
  match x with
  | Except.error _ => Except.ok ()
  | Except.ok u => Except.ok u

/-- Username formatting from `log_user_action` (`utils/logger.py`). -/
def format_username (username : Option String) : String :=
  match username with
  | some u => "@" ++ u
  | none => "No username"

/-- The log message built by `log_user_action` (`utils/logger.py`). -/
def build_user_action_message (username : Option String) (uid : Int)
    (action : String) (language : Option String)
    (additional_info : Option String) (timestamp : String) : String :=
  let base :=
    "📊 <b>User Action Log</b>\n\n" ++
    "👤 <b>User:</b> " ++ format_username username ++
    " (" ++ toString uid ++ ")\n" ++
    "🎯 <b>Action:</b> " ++ action ++ "\n"
  let withLang :=
    match language with
    | some l => base ++ "🌐 <b>Language:</b> " ++ l ++ "\n"
    | none => base
  let withInfo :=
    match additional_info with
    | some i => withLang ++ "ℹ️ <b>Info:</b> " ++ i ++ "\n"
    | none => withLang
  withInfo ++ "⏰ <b>Time:</b> " ++ timestamp

/-- Embedding of `TelegramLogger.log_user_action` (`utils/logger.py` lines
44-99): the whole body runs under an outer `try/except`; when a log
channel is configured the channel send runs under its own inner
`try/except`, so a send failure is swallowed; without a channel only a
warning is logged. `send` is the external transport call and may fail. -/
def log_user_action (send : Int → String → Except String Unit)
    (log_channel_id : Option Int) (username : Option String) (uid : Int)
    (action : String) (language : Option String)
    (additional_info : Option String) (timestamp : String) :
    Except String Unit :=
  swallow
    (let msg := build_user_action_message username uid action language
        additional_info timestamp
     match log_channel_id with
     | some cid => swallow (send cid msg)
     | none => Except.ok ())

/-- Embedding of `TelegramLogger.log_admin_action` (`utils/logger.py`):
builds the `Target:`/`Reason:` info string and delegates to
`log_user_action` with the `[ADMIN]`-tagged action. -/
def log_admin_action (send : Int → String → Except String Unit)
    (log_channel_id : Option Int) (username : Option String) (uid : Int)
    (action : String) (target : Option String) (reason : Option String)
    (timestamp : String) : Except String Unit :=
  let infos :=
    (match target with
     | some t => ["Target: " ++ t]
     | none => []) ++
    (match reason with
     | some r => ["Reason: " ++ r]
     | none => [])
  let additional_info :=
    if infos.isEmpty then none else some (String.intercalate " | " infos)
  log_user_action send log_channel_id username uid ("[ADMIN] " ++ action)
    none additional_info timestamp

/-- The log message built by `log_system_event` (`utils/logger.py`). -/
def build_system_event_message (event : String) (details : Option String)
    (timestamp : String) : String :=
  let base :=
    "🤖 <b>System Event</b>\n\n" ++
    "📋 <b>Event:</b> " ++ event ++ "\n"
  let withDetails :=
    match details with
    | some d => base ++ "📝 <b>Details:</b> " ++ d ++ "\n"
    | none => base
  withDetails ++ "⏰ <b>Time:</b> " ++ timestamp

/-- Embedding of `TelegramLogger.log_system_event` (`utils/logger.py`
lines 129-165): same outer/inner `try/except` structure as
`log_user_action`. -/
def log_system_event (send : Int → String → Except String Unit)
    (log_channel_id : Option Int) (event : String)
    (details : Option String) (timestamp : String) : Except String Unit :=
  swallow
    (let msg := build_system_event_message event details timestamp
     match log_channel_id with
     | some cid => swallow (send cid msg)
     | none => Except.ok ())

/-! ### Helper lemmas -/

theorem updateStatus_ticket_number (n : Int) (new : TicketStatus)
    (r : Option String) (t : Ticket) :
    (updateStatus n new r t).ticket_number = t.ticket_number := by
  unfold updateStatus
  split <;> rfl

theorem find_map_updateStatus (l : List Ticket) (n : Int)
    (new : TicketStatus) (r : Option String) :
    (l.map (updateStatus n new r)).find? (fun t => t.ticket_number == n) =
      (l.find? (fun t => t.ticket_number == n)).map (updateStatus n new r) := by
  induction l with
  | nil => rfl
  | cons u l ih =>
    simp only [List.map_cons, List.find?_cons, updateStatus_ticket_number]
    cases h : (u.ticket_number == n) <;> simp [h, ih]

theorem get_random_active_mem (st : Store) (r : Nat) (t : Ticket)
    (h : get_random_active_ticket st r = some t) :
    t ∈ st.tickets ∧ t.status = TicketStatus.active := by
  unfold get_random_active_ticket at h
  rcases List.getElem?_eq_some_iff.1 h with ⟨hlt, hEq⟩
  have hmem : t ∈ st.tickets.filter (fun t => t.status == TicketStatus.active) :=
    hEq ▸ List.getElem_mem hlt
  have hsplit := List.mem_filter.1 hmem
  exact ⟨hsplit.1, by simpa using hsplit.2⟩

/-! ### Claim theorems -/

/-- Claim C1: while a draw is in progress (the draw mutual-exclusion flag
is held), a second draw attempt by an administrator is answered
"draw in progress" immediately, and the system state — ticket store and
lock — is left exactly as it was: the caller is rejected, not queued. -/
theorem draw_in_progress_rejected_immediately (admin_ids : List Int)
    (uid : Int) (randIdx : Nat) (s : SysState)
    (hadmin : is_admin uid admin_ids = true)
    (hlock : s.drawLocked = true) :
    admin_start_draw admin_ids uid randIdx s = (DrawResponse.drawInProgress, s) := by
  unfold admin_start_draw
  simp [hadmin, hlock]

/-- Witness for C1: a concrete locked state rejects a concrete admin. -/
theorem draw_in_progress_rejected_immediately_witness :
    admin_start_draw [7] 7 0
        { store := { tickets := [], counter := 0 }, drawLocked := true } =
      (DrawResponse.drawInProgress,
       { store := { tickets := [], counter := 0 }, drawLocked := true }) :=
  draw_in_progress_rejected_immediately [7] 7 0
    { store := { tickets := [], counter := 0 }, drawLocked := true }
    (by decide) (by decide)

/-- Claim C2: when an administrator confirms an active ticket as winner,
that ticket's status becomes `rejected` (its reason cleared) while every
other ticket is mapped to itself — status and all fields unchanged — and
consequently no subsequent draw can ever return the confirmed number. -/
theorem confirm_winner_marks_rejected (admin_ids : List Int) (uid : Int)
    (data : String) (st : Store) (num : Int) (t : Ticket)
    (hadmin : is_admin uid admin_ids = true)
    (hpre : starts_with data "confirm_win:" = true)
    (hp : parse_int_safe (after_first_colon data) = some num)
    (hfind : get_ticket_by_number_any_status st num = some t)
    (hact : t.status = TicketStatus.active) :
    admin_confirm_winner admin_ids uid data st =
      (ConfirmResponse.winnerPublished num,
       { st with tickets :=
           st.tickets.map (updateStatus num TicketStatus.rejected none) }) ∧
    ∀ (r : Nat) (t' : Ticket),
      get_random_active_ticket (admin_confirm_winner admin_ids uid data st).2 r
          = some t' →
      t'.ticket_number ≠ num := by
  have hfind' : st.tickets.find? (fun u => u.ticket_number == num) = some t := hfind
  have hmain : admin_confirm_winner admin_ids uid data st =
      (ConfirmResponse.winnerPublished num,
       { st with tickets :=
           st.tickets.map (updateStatus num TicketStatus.rejected none) }) := by
    unfold admin_confirm_winner
    rw [hp]
    simp [hadmin, hpre, hfind, hact, set_ticket_status, hfind',
      allowedTransition]
  refine ⟨hmain, ?_⟩
  intro r t' hdraw hnum
  rw [hmain] at hdraw
  obtain ⟨hmem, hstat⟩ := get_random_active_mem _ r t' hdraw
  obtain ⟨u, humem, hupd⟩ := List.mem_map.1 hmem
  by_cases hn : u.ticket_number == num
  · rw [← hupd] at hstat
    simp [updateStatus, hn] at hstat
  · rw [← hupd] at hnum
    rw [updateStatus_ticket_number] at hnum
    simp [hnum] at hn

/-- Witness for C2: confirming active ticket 1 in a two-ticket store marks
ticket 1 `rejected` and leaves ticket 2 untouched. -/
theorem confirm_winner_marks_rejected_witness :
    admin_confirm_winner [9] 9 "confirm_win:1"
        { tickets :=
            [{ ticket_number := 1, user_id := 100, username := some "a",
               file_id := "fa", status := TicketStatus.active,
               status_reason := none },
             { ticket_number := 2, user_id := 200, username := none,
               file_id := "fb", status := TicketStatus.active,
               status_reason := none }],
          counter := 2 } =
      (ConfirmResponse.winnerPublished 1,
       { tickets :=
           [{ ticket_number := 1, user_id := 100, username := some "a",
              file_id := "fa", status := TicketStatus.rejected,
              status_reason := none },
            { ticket_number := 2, user_id := 200, username := none,
              file_id := "fb", status := TicketStatus.active,
              status_reason := none }],
         counter := 2 }) := by
  have h := confirm_winner_marks_rejected [9] 9 "confirm_win:1"
    { tickets :=
        [{ ticket_number := 1, user_id := 100, username := some "a",
           file_id := "fa", status := TicketStatus.active,
           status_reason := none },
         { ticket_number := 2, user_id := 200, username := none,
           file_id := "fb", status := TicketStatus.active,
           status_reason := none }],
      counter := 2 }
    1
    { ticket_number := 1, user_id := 100, username := some "a",
      file_id := "fa", status := TicketStatus.active, status_reason := none }
    (by decide) (by decide) (by decide) (by decide) (by decide)
  rw [h.1]
  decide

/-- Claim C3: archiving removes every ticket from the live working set —
every user's active-ticket listing is empty afterwards — while the global
ticket-number counter is preserved, so the next issued number is exactly
one greater than the last number issued before archival. -/
theorem archive_round_clears_tickets_preserves_counter (st : Store) :
    (∀ uid : Int, get_active_tickets_by_user (archive_lottery st) uid = []) ∧
    (archive_lottery st).counter = st.counter ∧
    (get_next_ticket_number
        (archive_lottery (get_next_ticket_number st).2)).1 =
      (get_next_ticket_number st).1 + 1 := by
  refine ⟨?_, rfl, rfl⟩
  intro uid
  simp [get_active_tickets_by_user, archive_lottery]

/-- Claim C4: a `rejected` ticket is terminal — an attempt to set it back
to `active` fails and leaves the store untouched, and after any
`set_ticket_status` call whatsoever on that number the ticket found at
that number still has status `rejected`. -/
theorem rejected_ticket_is_terminal (st : Store) (n : Int) (t : Ticket)
    (hfind : get_ticket_by_number_any_status st n = some t)
    (hrej : t.status = TicketStatus.rejected) :
    (∀ r : Option String,
      set_ticket_status st n TicketStatus.active r = (false, st)) ∧
    (∀ (new : TicketStatus) (r : Option String),
      ∃ t', get_ticket_by_number_any_status
          (set_ticket_status st n new r).2 n = some t' ∧
        t'.status = TicketStatus.rejected) := by
  have hfind' : st.tickets.find? (fun u => u.ticket_number == n) = some t := hfind
  constructor
  · intro r
    unfold set_ticket_status
    rw [hfind']
    simp [hrej, allowedTransition]
  · intro new r
    cases new with
    | active =>
      refine ⟨t, ?_, hrej⟩
      unfold set_ticket_status
      rw [hfind']
      simp [hrej, allowedTransition]
      exact hfind
    | rejected =>
      refine ⟨updateStatus n TicketStatus.rejected r t, ?_, ?_⟩
      · have hallow : allowedTransition t.status TicketStatus.rejected = true := by
          rw [hrej]
          rfl
        unfold set_ticket_status
        rw [hfind']
        simp only [hallow, if_true]
        unfold get_ticket_by_number_any_status
        rw [find_map_updateStatus, hfind']
        rfl
      · have hn := List.find?_some hfind'
        simp [updateStatus, hn]

/-- Witness for C4: a store holding one rejected ticket refuses to
reactivate it and still reports it `rejected` afterwards. -/
theorem rejected_ticket_is_terminal_witness :
    set_ticket_status
        { tickets :=
            [{ ticket_number := 3, user_id := 5, username := none,
               file_id := "f", status := TicketStatus.rejected,
               status_reason := some "lost" }],
          counter := 3 } 3 TicketStatus.active none =
      (false,
       { tickets :=
           [{ ticket_number := 3, user_id := 5, username := none,
              file_id := "f", status := TicketStatus.rejected,
              status_reason := some "lost" }],
         counter := 3 }) :=
  (rejected_ticket_is_terminal
    { tickets :=
        [{ ticket_number := 3, user_id := 5, username := none,
           file_id := "f", status := TicketStatus.rejected,
           status_reason := some "lost" }],
      counter := 3 } 3
    { ticket_number := 3, user_id := 5, username := none,
      file_id := "f", status := TicketStatus.rejected,
      status_reason := some "lost" }
    (by decide) (by decide)).1 none

/-- Claim C5: confirming a winner with a stale ticket number — one that no
ticket carries, or whose ticket is no longer `active` — answers
"ticket unavailable" and returns the store exactly as it was; since the
store is unchanged, re-invocation with the same stale number yields the
same answer (idempotence). -/
theorem stale_confirm_is_noop (admin_ids : List Int) (uid : Int)
    (data : String) (st : Store) (num : Int)
    (hadmin : is_admin uid admin_ids = true)
    (hpre : starts_with data "confirm_win:" = true)
    (hp : parse_int_safe (after_first_colon data) = some num)
    (hstale : ∀ t, get_ticket_by_number_any_status st num = some t →
      t.status ≠ TicketStatus.active) :
    admin_confirm_winner admin_ids uid data st =
      (ConfirmResponse.unavailable, st) := by
  unfold admin_confirm_winner
  rw [hp]
  cases hfind : get_ticket_by_number_any_status st num with
  | none => simp [hadmin, hpre, hfind]
  | some t =>
    have hne := hstale t hfind
    simp [hadmin, hpre, hfind, hne]

/-- Witness for C5: confirming number 4 when only a rejected ticket 4
exists answers unavailable and leaves the store as it was. -/
theorem stale_confirm_is_noop_witness :
    admin_confirm_winner [9] 9 "confirm_win:4"
        { tickets :=
            [{ ticket_number := 4, user_id := 6, username := none,
               file_id := "g", status := TicketStatus.rejected,
               status_reason := none }],
          counter := 4 } =
      (ConfirmResponse.unavailable,
       { tickets :=
           [{ ticket_number := 4, user_id := 6, username := none,
              file_id := "g", status := TicketStatus.rejected,
              status_reason := none }],
         counter := 4 }) :=
  stale_confirm_is_noop [9] 9 "confirm_win:4"
    { tickets :=
        [{ ticket_number := 4, user_id := 6, username := none,
           file_id := "g", status := TicketStatus.rejected,
           status_reason := none }],
      counter := 4 } 4
    (by decide) (by decide) (by decide) (by decide)

/-- Claim C6: a callback payload whose suffix after the colon is not a
decimal integer makes both receiving handlers answer "incorrect ticket
number" and return the store exactly as received — no lookup result is
consulted and no ticket is mutated. -/
theorem malformed_payload_is_noop (admin_ids : List Int) (uid : Int)
    (cdata vdata : String) (st : Store)
    (hadmin : is_admin uid admin_ids = true)
    (hcpre : starts_with cdata "confirm_win:" = true)
    (hcparse : parse_int_safe (after_first_colon cdata) = none)
    (hvpre : starts_with vdata "view_ticket:" = true)
    (hvparse : parse_int_safe (after_first_colon vdata) = none) :
    admin_confirm_winner admin_ids uid cdata st =
      (ConfirmResponse.incorrectNumber, st) ∧
    user_view_ticket_callback uid vdata st =
      (ViewResponse.incorrectNumber, st) := by
  constructor
  · unfold admin_confirm_winner
    rw [hcparse]
    simp [hadmin, hcpre]
  · unfold user_view_ticket_callback
    rw [hvparse]
    simp [hvpre]

/-- Witness for C6: the payloads `confirm_win:abc` and `view_ticket:abc`
are both answered with the invalid-number response on a concrete store. -/
theorem malformed_payload_is_noop_witness :
    admin_confirm_winner [9] 9 "confirm_win:abc"
        { tickets := [], counter := 0 } =
      (ConfirmResponse.incorrectNumber, { tickets := [], counter := 0 }) ∧
    user_view_ticket_callback 9 "view_ticket:abc"
        { tickets := [], counter := 0 } =
      (ViewResponse.incorrectNumber, { tickets := [], counter := 0 }) :=
  malformed_payload_is_noop [9] 9 "confirm_win:abc" "view_ticket:abc"
    { tickets := [], counter := 0 }
    (by decide) (by decide) (by decide) (by decide) (by decide)

/-- Claim C7: for every user, the active-ticket listing holds exactly the
ticket numbers of that user's `active` tickets, in ascending order, and is
the empty sequence — a valid result, not an error — when the user has no
active tickets. -/
theorem list_active_tickets_exact_sorted (st : Store) (uid : Int) :
    List.Sorted (fun a b => a ≤ b) (get_active_tickets_by_user st uid) ∧
    (∀ n : Int, n ∈ get_active_tickets_by_user st uid ↔
      ∃ t ∈ st.tickets, t.user_id = uid ∧ t.status = TicketStatus.active ∧
        t.ticket_number = n) ∧
    ((∀ t ∈ st.tickets,
        ¬(t.user_id = uid ∧ t.status = TicketStatus.active)) →
      get_active_tickets_by_user st uid = []) := by
  refine ⟨List.sorted_mergeSort' _, ?_, ?_⟩
  · intro n
    unfold get_active_tickets_by_user
    rw [(List.mergeSort_perm _ _).mem_iff]
    simp only [List.mem_map, List.mem_filter, Bool.and_eq_true, beq_iff_eq]
    constructor
    · rintro ⟨t, ⟨hmem, hu, hs⟩, hn⟩
      exact ⟨t, hmem, hu, hs, hn⟩
    · rintro ⟨t, hmem, hu, hs, hn⟩
      exact ⟨t, ⟨hmem, hu, hs⟩, hn⟩
  · intro hnone
    unfold get_active_tickets_by_user
    have hfil : st.tickets.filter
        (fun t => t.user_id == uid && t.status == TicketStatus.active) = [] := by
      rw [List.filter_eq_nil_iff]
      intro t hmem
      have := hnone t hmem
      simp only [Bool.and_eq_true, beq_iff_eq]
      intro hc
      exact this hc
    rw [hfil]
    simp [List.mergeSort_nil]

/-- Witness for C7: a user whose only ticket is `rejected` gets the empty
listing. -/
theorem list_active_tickets_exact_sorted_witness :
    get_active_tickets_by_user
        { tickets :=
            [{ ticket_number := 2, user_id := 7, username := none,
               file_id := "f", status := TicketStatus.rejected,
               status_reason := none }],
          counter := 2 } 7 = [] :=
  (list_active_tickets_exact_sorted
    { tickets :=
        [{ ticket_number := 2, user_id := 7, username := none,
           file_id := "f", status := TicketStatus.rejected,
           status_reason := none }],
      counter := 2 } 7).2.2 (by decide)

/-- Claim C9: a user who already has a saved language preference keeps the
same stored value after any later /start command, whatever locale hint the
client supplies — the handler either skips the write or writes the saved
value back unchanged. -/
theorem saved_language_preserved (tr : Translations) (m : LangMap)
    (uid : Int) (code : Option String) (l : String)
    (hsaved : db_get_user_language m uid = some l) :
    db_get_user_language (handle_start_language tr m uid code) uid =
      some l := by
  unfold handle_start_language
  rw [hsaved]
  by_cases h : l = get_user_lang tr code
  · simpa [h] using hsaved
  · simp [h, db_set_user_language, db_get_user_language, List.lookup_cons]

/-- Witness for C9: a stored preference of `russian` survives a /start
carrying an English locale hint. -/
theorem saved_language_preserved_witness :
    db_get_user_language
        (handle_start_language [("english", [])] [(1, "russian")] 1
          (some "en")) 1 = some "russian" :=
  saved_language_preserved [("english", [])] [(1, "russian")] 1 (some "en")
    "russian" (by decide)

/-- Any unit action run under `try/except Exception` completes normally. -/
theorem swallow_ok (x : Except String Unit) : swallow x = Except.ok () := by
  cases x with
  | error e => rfl
  | ok u => cases u; rfl

/-- Claim C8: audit logging is best-effort — whatever the channel
configuration and whatever the outcome of the underlying channel send,
`log_user_action`, `log_admin_action` and `log_system_event` all complete
normally, so the audited core operation can never fail because of the
audit sink. -/
theorem audit_logging_never_fails
    (send : Int → String → Except String Unit) (log_channel_id : Option Int)
    (username : Option String) (uid : Int) (action : String)
    (language additional_info : Option String) (timestamp : String)
    (target reason : Option String) (event : String)
    (details : Option String) :
    log_user_action send log_channel_id username uid action language
        additional_info timestamp = Except.ok () ∧
    log_admin_action send log_channel_id username uid action target reason
        timestamp = Except.ok () ∧
    log_system_event send log_channel_id event details timestamp =
      Except.ok () :=
  ⟨swallow_ok _, swallow_ok _, swallow_ok _⟩

/-- Claim C10: `get_text` computes exactly the total fallback chain the
spec describes — user's language, then the English default, then the
literal missing-translation marker, with a formatting failure yielding the
unformatted translation — so it returns a string for every input (it is a
total function) and never fails. -/
theorem get_text_matches_fallback_spec
    (fmt : String → List (String × String) → FmtResult) (tr : Translations)
    (m : LangMap) (uid : Int) (key : String)
    (params : List (String × String)) :
    get_text fmt tr m uid key params =
      get_text_fallback_spec fmt tr m uid key params := by
  unfold get_text get_text_fallback_spec
  cases h1 : (tr.lookup (local_get_user_language m uid)).bind
      (fun d => d.lookup key) with
  | some t =>
    cases hf : fmt t params <;> simp [h1, hf]
  | none =>
    cases h2 : (tr.lookup DEFAULT_LANGUAGE).bind (fun d => d.lookup key) with
    | some t => cases hf : fmt t params <;> simp [h1, h2, hf]
    | none => simp [h1, h2]

end Lottery
